import Mathlib

/-!
Verification of the thermal-regulation firmware core
(state store `rtdb`, on/off control law, UART protocol codec).

Bytes are modelled as `Nat` (values 0..255 in practice), C `int16`
values as `Int` (no operation in the modelled code wraps around the
int16 range: parsed values are at most 4 decimal digits), and C
`uint32` as `Nat`.

The embedded code follows the canonical / unit-tested revision of the
subsystem (`dummy/rtdb_dummy.c`, `dummy/uartcomm_dummy.c`,
`dummy/controller_dummy.c`, and the framer of `src/uartcomm.c`), which
is the revision the specification designates as canonical.
-/

namespace Setr

/-- The shared state record (`rtdb_dummy_t` / `rtdb_t`). -/
structure Rtdb where
  system_on : Bool
  setpoint : Int
  current_temp : Int
  max_temp : Int
  min_temp : Int
  heater : Bool
  sampling_rate_ms : Nat
  deriving Repr, DecidableEq

/-- Default state installed by `rtdb_dummy_init` / the `g_rtdb` initialiser. -/
def rtdb_default : Rtdb :=
  { system_on := true
    setpoint := 26
    current_temp := 0
    max_temp := 80
    min_temp := 20
    heater := false
    sampling_rate_ms := 1000 }

/-- Model of `rtdb_dummy_set_system_on` / `rtdb_set_system_on`. -/
def rtdb_set_system_on (b : Bool) (st : Rtdb) : Rtdb :=
  { st with system_on := b }

/-- Model of `rtdb_dummy_set_setpoint` / `rtdb_set_setpoint`:
clamps the new value between `min_temp` and `max_temp`. -/
def rtdb_set_setpoint (val : Int) (st : Rtdb) : Rtdb :=
  if val > st.max_temp then { st with setpoint := st.max_temp }
  else if val < st.min_temp then { st with setpoint := st.min_temp }
  else { st with setpoint := val }

/-- Model of `rtdb_dummy_set_current_temp` / `rtdb_set_current_temp`. -/
def rtdb_set_current_temp (val : Int) (st : Rtdb) : Rtdb :=
  { st with current_temp := val }

/-- Model of `rtdb_dummy_set_max_temp` / `rtdb_set_max_temp`: writes `max_temp`,
then pulls `setpoint` down to it when the setpoint exceeds it. -/
def rtdb_set_max_temp (val : Int) (st : Rtdb) : Rtdb :=
  if st.setpoint > val then { st with max_temp := val, setpoint := val }
  else { st with max_temp := val }

/-- Model of `rtdb_dummy_set_min_temp` / `rtdb_set_min_temp`: writes `min_temp`,
then pushes `setpoint` up to it when the setpoint is below it. -/
def rtdb_set_min_temp (val : Int) (st : Rtdb) : Rtdb :=
  if st.setpoint < val then { st with min_temp := val, setpoint := val }
  else { st with min_temp := val }

/-- Model of `rtdb_dummy_set_heater`. -/
def rtdb_set_heater (b : Bool) (st : Rtdb) : Rtdb :=
  { st with heater := b }

/-- Model of `rtdb_dummy_set_sampling_rate` / `rtdb_set_sampling_rate`:
clamps the new period into [10, 60000] ms. -/
def rtdb_set_sampling_rate (ms : Nat) (st : Rtdb) : Rtdb :=
  if ms < 10 then { st with sampling_rate_ms := 10 }
  else if ms > 60000 then { st with sampling_rate_ms := 60000 }
  else { st with sampling_rate_ms := ms }

/-- Model of `controller_dummy_compute` (the canonical, tested control law):
priority-ordered threshold rules, previous heater state unused. -/
def controller_dummy_compute (system_on : Bool) (setpoint current_temp min_temp max_temp : Int)
    (heater_was_on : Bool) : Bool :=
  if !system_on then false
  else if current_temp > max_temp then false
  else if current_temp < min_temp then true
  else if current_temp < setpoint then true
  else false

/-- The state-store invariant of the spec: `min_temp ≤ setpoint ≤ max_temp`. -/
def rtdb_invariant (st : Rtdb) : Prop :=
  st.min_temp ≤ st.setpoint ∧ st.setpoint ≤ st.max_temp

instance (st : Rtdb) : Decidable (rtdb_invariant st) := by
  unfold rtdb_invariant; infer_instance

/-! ## Protocol codec: checksum, `atoi`, frame building -/

/-- Is the byte an ASCII decimal digit (`isdigit` on '0'..'9')? -/
def isDigitB (b : Nat) : Bool := 48 ≤ b ∧ b ≤ 57

/-- Is the byte C whitespace (as skipped by `atoi`)? -/
def isSpaceB (b : Nat) : Bool := b = 32 ∨ (9 ≤ b ∧ b ≤ 13)

/-- Digit-consuming loop of `atoi`: accumulates while bytes are digits,
stops at the first non-digit (a NUL byte included). -/
def atoiLoop : List Nat → Int → Int
  | [], acc => acc
  | b :: rest, acc =>
      if isDigitB b then atoiLoop rest (acc * 10 + ((b : Int) - 48)) else acc

/-- C `atoi` on the byte list (the C strings involved are the listed
bytes followed by a terminating NUL): skip leading whitespace, read an
optional sign, then consume digits. -/
def atoi (s : List Nat) : Int :=
  let t := s.dropWhile isSpaceB
  match t with
  | [] => 0
  | b :: rest =>
      if b = 43 then atoiLoop rest 0
      else if b = 45 then - atoiLoop rest 0
      else atoiLoop t 0

/-- The C cast `(uint8_t)v` on an `int` value: reduction modulo 256. -/
def toUInt8 (v : Int) : Nat := (v % 256).toNat

/-- Sum of a byte list. -/
def listSum (l : List Nat) : Nat := l.foldl (· + ·) 0

/-- Model of `calculate_checksum`: modulo-256 sum of the bytes (the `uint16_t`
accumulator cannot overflow for frames of at most 64 bytes). -/
def calculate_checksum (l : List Nat) : Nat := listSum l % 256

/-- Render a checksum (0..255) as three zero-padded ASCII decimal digits. -/
def digits3 (n : Nat) : List Nat := [48 + n / 100 % 10, 48 + n / 10 % 10, 48 + n % 10]

/-- Render a value (0..9999) as four zero-padded ASCII decimal digits
(the `out[]` construction of the `r` command reply). -/
def digits4 (n : Nat) : List Nat :=
  [48 + n / 1000 % 10, 48 + n / 100 % 10, 48 + n / 10 % 10, 48 + n % 10]

/-- Model of `send_frame`: a `#`, the command byte, the data, 3 checksum digits, a `!`,
with the checksum computed over command byte and data. -/
def send_frame (cmd : Nat) (data : List Nat) : List Nat :=
  35 :: cmd :: data ++ digits3 (calculate_checksum (cmd :: data)) ++ [33]

/-- Model of `send_ack`: an acknowledgment frame `#E<code>!`. -/
def ack_frame (code : Nat) : List Nat := send_frame 69 [code]

/-- Received checksum of a frame: `(uint8_t)atoi` of the three bytes at
`buf[len-4] .. buf[len-2]`. -/
def cs_received (buf : List Nat) : Nat :=
  toUInt8 (atoi ((buf.drop (buf.length - 4)).take 3))

/-- Data bytes of a frame: `data_len = len - 6` bytes starting at `buf + 2`. -/
def frame_data (buf : List Nat) : List Nat := (buf.drop 2).take (buf.length - 6)

/-- Clamp of `current_temp` into [0, 999] performed by the `C` command. -/
def clamp3 (cur : Int) : Int := if cur < 0 then 0 else if cur > 999 then 999 else cur

/-- The command switch of `handle_command` (canonical, tested
revision, `uartcomm_dummy.c`), acting on the parsed command byte, data
bytes and received checksum of a syntactically well-formed frame:
returns the new state and the list of emitted frames (acknowledgments
and replies), in emission order. -/
def dispatch (cmd : Nat) (data : List Nat) (cs_rcv : Nat) (st : Rtdb) : Rtdb × List (List Nat) :=
  if cmd = 67 then
    -- 'C': reply with the clamped current temperature; the expected
    -- checksum is computed over 'C' and the three reply digits.
    if (67 + listSum (digits3 (clamp3 st.current_temp).toNat)) % 256 ≠ cs_rcv then
      (st, [ack_frame 115])
    else (st, [send_frame 99 (digits3 (clamp3 st.current_temp).toNat)])
  else if cmd = 77 then
    -- 'M': set max_temp (3 digits), rejected below min_temp.
    if data.length ≠ 3 then (st, [ack_frame 105])
    else if (77 + listSum data) % 256 ≠ cs_rcv then (st, [ack_frame 115])
    else if atoi data < st.min_temp then (st, [ack_frame 105])
    else (rtdb_set_max_temp (atoi data) st, [ack_frame 111])
  else if cmd = 109 then
    -- 'm': set min_temp (3 digits), rejected above max_temp.
    if data.length ≠ 3 then (st, [ack_frame 105])
    else if (109 + listSum data) % 256 ≠ cs_rcv then (st, [ack_frame 115])
    else if atoi data > st.max_temp then (st, [ack_frame 105])
    else (rtdb_set_min_temp (atoi data) st, [ack_frame 111])
  else if cmd = 82 then
    -- 'R': set sampling rate (4 digits); the range check runs BEFORE
    -- the checksum comparison.
    if data.length ≠ 4 then (st, [ack_frame 105])
    else if atoi data < 10 ∨ atoi data > 9999 then (st, [ack_frame 105])
    else if (82 + listSum data) % 256 ≠ cs_rcv then (st, [ack_frame 115])
    else (rtdb_set_sampling_rate (atoi data).toNat st, [ack_frame 111])
  else if cmd = 114 then
    -- 'r': reply with the sampling rate clamped to 9999, command 's'.
    if data.length ≠ 0 then (st, [ack_frame 105])
    else if 114 ≠ cs_rcv then (st, [ack_frame 115])
    else (st, [send_frame 115 (digits4 (min st.sampling_rate_ms 9999))])
  else if cmd = 69 then
    -- 'E': '0' enables the system, '1' disables it.
    if data.length ≠ 1 then (st, [ack_frame 105])
    else if (69 + listSum data) % 256 ≠ cs_rcv then (st, [ack_frame 115])
    else if data.getD 0 0 = 48 then (rtdb_set_system_on true st, [ack_frame 111])
    else if data.getD 0 0 = 49 then (rtdb_set_system_on false st, [ack_frame 111])
    else (st, [ack_frame 105])
  else if cmd = 83 then
    -- 'S': controller-parameter stub, acknowledged with no state effect.
    if data.length < 1 then (st, [ack_frame 105])
    else if (83 + listSum data) % 256 ≠ cs_rcv then (st, [ack_frame 115])
    else (st, [ack_frame 111])
  else
    -- Unknown command: checksum over command byte and data bytes;
    -- mismatch emits checksum-error then invalid, match emits invalid.
    if (cmd + listSum data) % 256 ≠ cs_rcv then
      (st, [ack_frame 115, ack_frame 105])
    else (st, [ack_frame 105])

/-- Model of `handle_command`: checks the frame envelope (length at least 6,
leading `#`, trailing `!`), then parses command byte, data bytes and
received checksum and runs the command switch. -/
def handle_command (buf : List Nat) (st : Rtdb) : Rtdb × List (List Nat) :=
  if buf.length < 6 then (st, [ack_frame 102])
  else if ¬ (buf.getD 0 0 = 35 ∧ buf.getD (buf.length - 1) 0 = 33) then (st, [ack_frame 102])
  else dispatch (buf.getD 1 0) (frame_data buf) (cs_received buf) st

/-! ## Framer (`uart_task` of `src/uartcomm.c`) -/

/-- Buffer capacity `UART_BUF_SIZE`. -/
def UART_BUF_SIZE : Nat := 64

/-- An observable event of the framer: a framing-error acknowledgment,
or a completed frame handed to the dispatcher. -/
inductive UartEvent where
  | framingErr : UartEvent
  | dispatch : List Nat → UartEvent
  deriving Repr, DecidableEq

/-- One iteration of the `uart_task` receive loop on one input byte.
The framer state is the current frame buffer (`buf[0..idx-1]`); the
empty buffer is the IDLE state, a non-empty buffer is IN_FRAME. -/
def uart_step (buf : List Nat) (b : Nat) : List Nat × List UartEvent :=
  if b = 13 ∨ b = 10 then (buf, [])
  else if b = 33 ∧ buf.length = 0 then (buf, [.framingErr])
  else if b = 35 ∧ buf.length > 0 then ([35], [.framingErr])
  else if (b = 10 ∨ b = 13) ∧ buf.length > 0 then ([], [.framingErr])
  else if b = 35 then ([35], [])
  else if buf.length > 0 then
    if b = 33 then ([], [.dispatch (buf ++ [b])])
    else if (buf ++ [b]).length ≥ UART_BUF_SIZE then ([], [.framingErr])
    else (buf ++ [b], [])
  else (buf, [])

/-- Run the framer over a byte sequence, accumulating events. -/
def uart_run (buf : List Nat) : List Nat → List Nat × List UartEvent
  | [] => (buf, [])
  | b :: rest =>
      let s1 := uart_step buf b
      let s2 := uart_run s1.1 rest
      (s2.1, s1.2 ++ s2.2)

/-! ## Frame-parsing helper lemmas -/

theorem mk_frame_length (cmd : Nat) (data : List Nat) (x y z : Nat) :
    ((35 :: cmd :: data) ++ [x, y, z, 33]).length = data.length + 6 := by
  simp [List.length_append]

theorem mk_frame_getD0 (cmd : Nat) (data : List Nat) (x y z : Nat) :
    ((35 :: cmd :: data) ++ [x, y, z, 33]).getD 0 0 = 35 := rfl

theorem mk_frame_getD1 (cmd : Nat) (data : List Nat) (x y z : Nat) :
    ((35 :: cmd :: data) ++ [x, y, z, 33]).getD 1 0 = cmd := rfl

theorem mk_frame_getD_last (cmd : Nat) (data : List Nat) (x y z : Nat) :
    ((35 :: cmd :: data) ++ [x, y, z, 33]).getD (data.length + 6 - 1) 0 = 33 := by
  have hl : (35 :: cmd :: data).length = data.length + 2 := by simp
  rw [List.getD_append_right]
  · have h : data.length + 6 - 1 - (35 :: cmd :: data).length = 3 := by rw [hl]; omega
    rw [h]
    rfl
  · rw [hl]; omega

theorem mk_frame_cs_received (cmd : Nat) (data : List Nat) (x y z : Nat) :
    cs_received ((35 :: cmd :: data) ++ [x, y, z, 33]) = toUInt8 (atoi [x, y, z]) := by
  unfold cs_received
  rw [mk_frame_length]
  have h1 : data.length + 6 - 4 = (35 :: cmd :: data).length := by simp
  rw [h1, List.drop_left]
  rfl

theorem mk_frame_data (cmd : Nat) (data : List Nat) (x y z : Nat) :
    frame_data ((35 :: cmd :: data) ++ [x, y, z, 33]) = data := by
  unfold frame_data
  rw [mk_frame_length]
  have h1 : (35 :: cmd :: data) ++ [x, y, z, 33] = 35 :: cmd :: (data ++ [x, y, z, 33]) := by
    simp
  rw [h1]
  have h2 : (35 :: cmd :: (data ++ [x, y, z, 33])).drop 2 = data ++ [x, y, z, 33] := rfl
  rw [h2]
  have h3 : data.length + 6 - 6 = data.length := by omega
  rw [h3, List.take_left]

/-- Dispatching a syntactically well-formed frame
`# cmd data x y z !` reduces to the command switch on the parsed
pieces. -/
theorem handle_command_mk_frame (cmd : Nat) (data : List Nat) (x y z : Nat) (st : Rtdb) :
    handle_command ((35 :: cmd :: data) ++ [x, y, z, 33]) st
      = dispatch cmd data (toUInt8 (atoi [x, y, z])) st := by
  unfold handle_command
  rw [if_neg (by rw [mk_frame_length]; omega)]
  rw [if_neg (fun h => h ⟨mk_frame_getD0 cmd data x y z,
    by rw [mk_frame_length]; exact mk_frame_getD_last cmd data x y z⟩)]
  rw [mk_frame_getD1, mk_frame_data, mk_frame_cs_received]

/-! ## Theorems -/

/-- C1: the control law is a pure function of the five inputs
`system_on, setpoint, current_temp, min_temp, max_temp` (the previous
heater state is irrelevant), and returns the first matching rule of the
priority order: system off ⇒ OFF; above `max_temp` ⇒ OFF; below
`min_temp` ⇒ ON; below `setpoint` ⇒ ON; otherwise OFF. -/
theorem C1_control_law_pure_priority (so : Bool) (sp ct mn mx : Int) (h1 h2 : Bool) :
    controller_dummy_compute so sp ct mn mx h1 = controller_dummy_compute so sp ct mn mx h2
    ∧ (so = false → controller_dummy_compute so sp ct mn mx h1 = false)
    ∧ (so = true → ct > mx → controller_dummy_compute so sp ct mn mx h1 = false)
    ∧ (so = true → ct ≤ mx → ct < mn → controller_dummy_compute so sp ct mn mx h1 = true)
    ∧ (so = true → ct ≤ mx → mn ≤ ct →
        controller_dummy_compute so sp ct mn mx h1 = decide (ct < sp)) := by
  refine ⟨rfl, ?_, ?_, ?_, ?_⟩
  · rintro rfl; rfl
  · rintro rfl h
    unfold controller_dummy_compute
    split_ifs <;> simp_all <;> omega
  · rintro rfl h h'
    unfold controller_dummy_compute
    split_ifs <;> simp_all <;> omega
  · rintro rfl h h'
    unfold controller_dummy_compute
    split_ifs <;> simp_all <;> omega

/-- Witness for C1 at a concrete input: system on, `ct = 15` below
`min_temp = 20`, so the heater is commanded ON. -/
theorem C1_control_law_pure_priority_witness :
    controller_dummy_compute true 26 15 20 80 false = true := by
  have h := C1_control_law_pure_priority true 26 15 20 80 false true
  exact h.2.2.2.1 rfl (by decide) (by decide)

/-- C2 counterexample: from the default state (which satisfies
`min_temp ≤ setpoint ≤ max_temp`), the mutator `rtdb_set_max_temp 5`
leaves `setpoint = 5` below `min_temp = 20`, so it does NOT
re-establish the invariant. -/
theorem C2_counterexample :
    rtdb_invariant rtdb_default
    ∧ (rtdb_set_max_temp 5 rtdb_default).setpoint < (rtdb_set_max_temp 5 rtdb_default).min_temp
    ∧ ¬ rtdb_invariant (rtdb_set_max_temp 5 rtdb_default) := by
  refine ⟨by decide, by decide, ?_⟩
  intro h
  exact absurd h (by decide)

/-- C2 amended: `set_setpoint` clamps into `[min_temp, max_temp]`;
`set_max_temp v` with `v` below the setpoint pulls the setpoint down to
`v`; `set_min_temp v` with `v` above the setpoint pushes it up to `v`;
and, from a state satisfying the invariant, every mutator
re-establishes `min_temp ≤ setpoint ≤ max_temp` — provided
`set_max_temp` is called with `v ≥ min_temp` and `set_min_temp` with
`v ≤ max_temp` (which the protocol layer guarantees). -/
theorem C2_invariant_amended (st : Rtdb) (v : Int) (b : Bool) (c : Int) (ms : Nat)
    (hinv : rtdb_invariant st) :
    (st.min_temp ≤ v → v ≤ st.max_temp → (rtdb_set_setpoint v st).setpoint = v)
    ∧ (v < st.min_temp → (rtdb_set_setpoint v st).setpoint = st.min_temp)
    ∧ (st.max_temp < v → (rtdb_set_setpoint v st).setpoint = st.max_temp)
    ∧ (v < st.setpoint → (rtdb_set_max_temp v st).setpoint = v)
    ∧ (st.setpoint < v → (rtdb_set_min_temp v st).setpoint = v)
    ∧ rtdb_invariant (rtdb_set_setpoint v st)
    ∧ (st.min_temp ≤ v → rtdb_invariant (rtdb_set_max_temp v st))
    ∧ (v ≤ st.max_temp → rtdb_invariant (rtdb_set_min_temp v st))
    ∧ rtdb_invariant (rtdb_set_system_on b st)
    ∧ rtdb_invariant (rtdb_set_current_temp c st)
    ∧ rtdb_invariant (rtdb_set_heater b st)
    ∧ rtdb_invariant (rtdb_set_sampling_rate ms st) := by
  obtain ⟨hil, hir⟩ := hinv
  refine ⟨?_, ?_, ?_, ?_, ?_, ?_, ?_, ?_, ?_, ?_, ?_, ?_⟩
  · intro h h'; simp only [rtdb_set_setpoint]; split_ifs <;> simp <;> omega
  · intro h; simp only [rtdb_set_setpoint]; split_ifs <;> simp <;> omega
  · intro h; simp only [rtdb_set_setpoint]; split_ifs <;> simp <;> omega
  · intro h; simp only [rtdb_set_max_temp]; split_ifs <;> simp <;> omega
  · intro h; simp only [rtdb_set_min_temp]; split_ifs <;> simp <;> omega
  · simp only [rtdb_invariant, rtdb_set_setpoint]; split_ifs <;> simp <;> omega
  · intro h; simp only [rtdb_invariant, rtdb_set_max_temp]; split_ifs <;> simp <;> omega
  · intro h; simp only [rtdb_invariant, rtdb_set_min_temp]; split_ifs <;> simp <;> omega
  · exact ⟨hil, hir⟩
  · exact ⟨hil, hir⟩
  · exact ⟨hil, hir⟩
  · simp only [rtdb_invariant, rtdb_set_sampling_rate]; split_ifs <;> exact ⟨hil, hir⟩

/-- Witness for C2 amended at the default state with `v = 50`. -/
theorem C2_invariant_amended_witness :
    (rtdb_set_max_temp 50 rtdb_default).setpoint = 26
    ∧ rtdb_invariant (rtdb_set_max_temp 50 rtdb_default) := by
  have h := C2_invariant_amended rtdb_default 50 true 0 1000 (by decide)
  refine ⟨by decide, h.2.2.2.2.2.2.1 (by decide)⟩

/-- C8: `set_sampling_rate ms` stores `ms` clamped into [10, 60000],
the bound `sampling_rate_ms ∈ [10, 60000]` holds for the default state
and after `set_sampling_rate`, and every other mutator leaves
`sampling_rate_ms` unchanged (hence preserves the bound); the setter is
total. -/
theorem C8_sampling_rate_clamped (ms : Nat) (st : Rtdb) (b : Bool) (v : Int) :
    (rtdb_set_sampling_rate ms st).sampling_rate_ms
        = (if ms < 10 then 10 else if ms > 60000 then 60000 else ms)
    ∧ 10 ≤ (rtdb_set_sampling_rate ms st).sampling_rate_ms
    ∧ (rtdb_set_sampling_rate ms st).sampling_rate_ms ≤ 60000
    ∧ 10 ≤ rtdb_default.sampling_rate_ms ∧ rtdb_default.sampling_rate_ms ≤ 60000
    ∧ (rtdb_set_system_on b st).sampling_rate_ms = st.sampling_rate_ms
    ∧ (rtdb_set_setpoint v st).sampling_rate_ms = st.sampling_rate_ms
    ∧ (rtdb_set_current_temp v st).sampling_rate_ms = st.sampling_rate_ms
    ∧ (rtdb_set_max_temp v st).sampling_rate_ms = st.sampling_rate_ms
    ∧ (rtdb_set_min_temp v st).sampling_rate_ms = st.sampling_rate_ms
    ∧ (rtdb_set_heater b st).sampling_rate_ms = st.sampling_rate_ms := by
  refine ⟨?_, ?_, ?_, ?_, ?_, ?_, ?_, ?_, ?_, ?_, ?_⟩
  · simp only [rtdb_set_sampling_rate]; split_ifs <;> rfl
  · simp only [rtdb_set_sampling_rate]; split_ifs <;> simp <;> omega
  · simp only [rtdb_set_sampling_rate]; split_ifs <;> simp <;> omega
  · decide
  · decide
  · rfl
  · simp only [rtdb_set_setpoint]; split_ifs <;> rfl
  · rfl
  · simp only [rtdb_set_max_temp]; split_ifs <;> rfl
  · simp only [rtdb_set_min_temp]; split_ifs <;> rfl
  · rfl

/-- C3: for every frame with command code `R` and exactly 4 data
digits, the range check on the parsed value runs BEFORE the checksum
comparison: an out-of-range value draws the invalid acknowledgment
only, regardless of the received checksum; for an in-range value a
checksum mismatch draws the checksum-error acknowledgment and changes
no state. -/
theorem C3_R_range_before_checksum (d : List Nat) (x y z : Nat) (st : Rtdb)
    (hd : d.length = 4) (hdig : ∀ b ∈ d, 48 ≤ b ∧ b ≤ 57) :
    ((atoi d < 10 ∨ atoi d > 9999) →
        handle_command ((35 :: 82 :: d) ++ [x, y, z, 33]) st = (st, [ack_frame 105]))
    ∧ (10 ≤ atoi d → atoi d ≤ 9999 →
        (82 + listSum d) % 256 ≠ toUInt8 (atoi [x, y, z]) →
        handle_command ((35 :: 82 :: d) ++ [x, y, z, 33]) st = (st, [ack_frame 115])) := by
  constructor
  · intro hrange
    rw [handle_command_mk_frame]
    unfold dispatch
    rw [if_neg (by decide), if_neg (by decide), if_neg (by decide), if_pos rfl,
      if_neg (by omega), if_pos hrange]
  · intro hlo hhi hne
    rw [handle_command_mk_frame]
    unfold dispatch
    rw [if_neg (by decide), if_neg (by decide), if_neg (by decide), if_pos rfl,
      if_neg (by omega), if_neg (by omega), if_pos hne]

/-- Witness for C3: frame `#R0005231!` (value 5, below 10) draws only
the invalid acknowledgment although its checksum (231) is wrong. -/
theorem C3_R_range_before_checksum_witness :
    handle_command ((35 :: 82 :: [48, 48, 48, 53]) ++ [50, 51, 49, 33]) rtdb_default
      = (rtdb_default, [ack_frame 105]) :=
  (C3_R_range_before_checksum [48, 48, 48, 53] 50 51 49 rtdb_default (by decide)
      (by decide)).1 (Or.inl (by decide))

/-- C4 counterexample: for frame `#X1137!`, the checksum over the
command byte alone (88) disagrees with the received checksum (137),
yet the dispatcher emits only the invalid-command acknowledgment — not
the checksum-error acknowledgment first — because the code computes
the unknown-command checksum over the command byte AND the data bytes. -/
theorem C4_counterexample :
    calculate_checksum [88] ≠ cs_received [35, 88, 49, 49, 51, 55, 33]
    ∧ handle_command [35, 88, 49, 49, 51, 55, 33] rtdb_default
        = (rtdb_default, [ack_frame 105]) := by
  constructor
  · decide
  · decide

/-- C4 amended: for a syntactically well-formed frame with an unknown
command code, the dispatcher computes the checksum over the command
byte AND all data bytes; on disagreement with the received checksum it
emits checksum-error then invalid-command, on agreement only
invalid-command, the state store unchanged in both cases; in
particular `#X000232!` yields only the invalid acknowledgment and
`#X000000!` yields checksum-error then invalid. -/
theorem C4_unknown_command_acks (cmd : Nat) (data : List Nat) (x y z : Nat) (st : Rtdb)
    (hcmd : cmd ≠ 67 ∧ cmd ≠ 77 ∧ cmd ≠ 109 ∧ cmd ≠ 82 ∧ cmd ≠ 114 ∧ cmd ≠ 69 ∧ cmd ≠ 83) :
    ((cmd + listSum data) % 256 ≠ toUInt8 (atoi [x, y, z]) →
        handle_command ((35 :: cmd :: data) ++ [x, y, z, 33]) st
          = (st, [ack_frame 115, ack_frame 105]))
    ∧ ((cmd + listSum data) % 256 = toUInt8 (atoi [x, y, z]) →
        handle_command ((35 :: cmd :: data) ++ [x, y, z, 33]) st = (st, [ack_frame 105]))
    ∧ handle_command [35, 88, 48, 48, 48, 50, 51, 50, 33] rtdb_default
        = (rtdb_default, [ack_frame 105])
    ∧ handle_command [35, 88, 48, 48, 48, 48, 48, 48, 33] rtdb_default
        = (rtdb_default, [ack_frame 115, ack_frame 105]) := by
  obtain ⟨h67, h77, h109, h82, h114, h69, h83⟩ := hcmd
  refine ⟨?_, ?_, by decide, by decide⟩
  · intro hne
    rw [handle_command_mk_frame]
    unfold dispatch
    rw [if_neg h67, if_neg h77, if_neg h109, if_neg h82, if_neg h114, if_neg h69,
      if_neg h83, if_pos hne]
  · intro heq
    rw [handle_command_mk_frame]
    unfold dispatch
    rw [if_neg h67, if_neg h77, if_neg h109, if_neg h82, if_neg h114, if_neg h69,
      if_neg h83, if_neg (fun h => h heq)]

/-- Witness for C4 amended: unknown command `X` with data `000` and
received checksum `000`, which disagrees with the computed checksum
232, draws checksum-error then invalid. -/
theorem C4_unknown_command_acks_witness :
    handle_command ((35 :: 88 :: [48, 48, 48]) ++ [48, 48, 48, 33]) rtdb_default
      = (rtdb_default, [ack_frame 115, ack_frame 105]) :=
  (C4_unknown_command_acks 88 [48, 48, 48] 48 48 48 rtdb_default (by decide)).1 (by decide)

/-- C10: every frame with command code `S`, at least one data byte and
a matching checksum draws the success acknowledgment and leaves the
state store (every field) unchanged. -/
theorem C10_S_command_pure_ack (data : List Nat) (x y z : Nat) (st : Rtdb)
    (hd : 1 ≤ data.length)
    (hsum : (83 + listSum data) % 256 = toUInt8 (atoi [x, y, z])) :
    handle_command ((35 :: 83 :: data) ++ [x, y, z, 33]) st = (st, [ack_frame 111]) := by
  rw [handle_command_mk_frame]
  unfold dispatch
  rw [if_neg (by decide), if_neg (by decide), if_neg (by decide), if_neg (by decide),
    if_neg (by decide), if_neg (by decide), if_pos rfl, if_neg (by omega),
    if_neg (fun h => h hsum)]

/-- Witness for C10: frame `#Sabc377!` is acknowledged with success and
leaves the default state unchanged. -/
theorem C10_S_command_pure_ack_witness :
    handle_command ((35 :: 83 :: [97, 98, 99]) ++ [51, 55, 55, 33]) rtdb_default
      = (rtdb_default, [ack_frame 111]) :=
  C10_S_command_pure_ack [97, 98, 99] 51 55 55 rtdb_default (by decide) (by decide)

/-- C6: an accepted `C` query (well-formed frame, command byte `C`,
received checksum equal to the expected one) replies with a single
frame of command code `c` whose data is the 3-digit zero-padded
`current_temp` clamped to [0, 999], checksummed like any other frame
and with no state change; in particular, with `current_temp = 42` the
frame `#C217!` yields exactly the response `#c042249!`. -/
theorem C6_C_query_response (data : List Nat) (x y z : Nat) (st : Rtdb)
    (hcs : (67 + listSum (digits3 (clamp3 st.current_temp).toNat)) % 256
            = toUInt8 (atoi [x, y, z])) :
    handle_command ((35 :: 67 :: data) ++ [x, y, z, 33]) st
      = (st, [send_frame 99 (digits3 (clamp3 st.current_temp).toNat)])
    ∧ handle_command [35, 67, 50, 49, 55, 33] { rtdb_default with current_temp := 42 }
        = ({ rtdb_default with current_temp := 42 },
           [[35, 99, 48, 52, 50, 50, 52, 57, 33]]) := by
  constructor
  · rw [handle_command_mk_frame]
    unfold dispatch
    rw [if_pos rfl, if_neg (fun h => h hcs)]
  · decide

/-- Witness for C6: the accepted query `#C217!` against the state with
`current_temp = 42`. -/
theorem C6_C_query_response_witness :
    handle_command ((35 :: 67 :: []) ++ [50, 49, 55, 33])
        { rtdb_default with current_temp := 42 }
      = ({ rtdb_default with current_temp := 42 },
         [send_frame 99 (digits3 (clamp3 (42 : Int)).toNat)]) :=
  (C6_C_query_response [] 50 49 55 { rtdb_default with current_temp := 42 } (by decide)).1

/-! ## Framer lemmas -/

/-- One framer step keeps the buffer below the capacity bound. -/
theorem uart_step_bound (buf : List Nat) (b : Nat) (h : buf.length < UART_BUF_SIZE) :
    (uart_step buf b).1.length < UART_BUF_SIZE := by
  unfold uart_step
  split_ifs <;> simp_all [UART_BUF_SIZE] <;> omega

/-- A run over a concatenation is the run of the first part followed by
the run of the second from the intermediate state. -/
theorem uart_run_append (s : List Nat) (xs ys : List Nat) :
    uart_run s (xs ++ ys)
      = ((uart_run (uart_run s xs).1 ys).1,
         (uart_run s xs).2 ++ (uart_run (uart_run s xs).1 ys).2) := by
  induction xs generalizing s with
  | nil => simp [uart_run]
  | cons b rest ih => simp [uart_run, ih, List.append_assoc]

/-- Inside a frame, ordinary bytes are accumulated silently as long as
the buffer stays below capacity. -/
theorem uart_run_accum (mid : List Nat) (cur : List Nat) (hne : cur ≠ [])
    (hlen : cur.length + mid.length < UART_BUF_SIZE)
    (hmid : ∀ b ∈ mid, b ≠ 35 ∧ b ≠ 33 ∧ b ≠ 13 ∧ b ≠ 10) :
    uart_run cur mid = (cur ++ mid, []) := by
  induction mid generalizing cur with
  | nil => simp [uart_run]
  | cons b rest ih =>
      obtain ⟨hb35, hb33, hb13, hb10⟩ := hmid b (by simp)
      simp only [List.length_cons, UART_BUF_SIZE] at hlen
      have hstep : uart_step cur b = (cur ++ [b], []) := by
        unfold uart_step
        rw [if_neg (by push_neg; exact ⟨hb13, hb10⟩),
          if_neg (fun hh => hb33 hh.1), if_neg (fun hh => hb35 hh.1),
          if_neg (fun hh => hh.1.elim hb10 hb13), if_neg hb35,
          if_pos (List.length_pos.mpr hne), if_neg hb33,
          if_neg (by simp [UART_BUF_SIZE]; omega)]
      simp only [uart_run, hstep]
      rw [ih (cur ++ [b]) (by simp) (by simp [UART_BUF_SIZE]; omega)
        (fun c hc => hmid c (by simp [hc]))]
      simp

/-- Receiving `#` always restarts the frame buffer, with a framing
error reported when a frame was in progress. -/
theorem uart_step_hash (s : List Nat) :
    uart_step s 35 = ([35], if s = [] then [] else [.framingErr]) := by
  unfold uart_step
  rcases s with _ | ⟨a, s⟩ <;> simp

/-- Closing byte `!` on a non-empty buffer dispatches the frame. -/
theorem uart_step_bang (s : List Nat) (hne : s ≠ []) :
    uart_step s 33 = ([], [.dispatch (s ++ [33])]) := by
  unfold uart_step
  rw [if_neg (by decide), if_neg (fun hh => by
      have := hh.2; exact hne (List.length_eq_zero.mp this)),
    if_neg (fun hh => by exact absurd hh.1 (by decide)),
    if_neg (fun hh => by exact absurd hh.1 (by decide)),
    if_neg (by decide), if_pos (List.length_pos.mpr hne), if_pos rfl]

/-- C5: the framer is a two-state byte machine (IDLE = empty buffer,
IN_FRAME = non-empty buffer): in IDLE `#` starts a frame buffer
holding `#`, `!` reports a framing error with no state change, any
other byte is discarded; in IN_FRAME `#` reports a framing error for
the abandoned frame and restarts the buffer with the new `#`, `!`
closes the frame and hands the buffer to the dispatcher returning to
IDLE, and filling the buffer to capacity without `!` reports a framing
error and discards the buffer; CR and LF are discarded unconditionally
in both states; one step preserves the capacity bound of reachable
states. -/
theorem C5_framer_step_machine (buf : List Nat) (b : Nat) (hlen : buf.length < UART_BUF_SIZE) :
    uart_step [] 35 = ([35], [])
    ∧ uart_step [] 33 = ([], [.framingErr])
    ∧ (b ≠ 35 → b ≠ 33 → b ≠ 13 → b ≠ 10 → uart_step [] b = ([], []))
    ∧ (buf ≠ [] → uart_step buf 35 = ([35], [.framingErr]))
    ∧ (buf ≠ [] → uart_step buf 33 = ([], [.dispatch (buf ++ [33])]))
    ∧ (buf ≠ [] → b ≠ 35 → b ≠ 33 → b ≠ 13 → b ≠ 10 →
        UART_BUF_SIZE ≤ buf.length + 1 → uart_step buf b = ([], [.framingErr]))
    ∧ uart_step buf 13 = (buf, [])
    ∧ uart_step buf 10 = (buf, [])
    ∧ (uart_step buf b).1.length < UART_BUF_SIZE := by
  refine ⟨by decide, by decide, ?_, ?_, ?_, ?_, ?_, ?_, uart_step_bound buf b hlen⟩
  · intro h35 h33 h13 h10
    unfold uart_step
    rw [if_neg (by push_neg; exact ⟨h13, h10⟩), if_neg (fun hh => h33 hh.1),
      if_neg (fun hh => h35 hh.1), if_neg (fun hh => hh.1.elim h10 h13),
      if_neg h35, if_neg (by simp)]
  · intro hne
    rw [uart_step_hash, if_neg hne]
  · exact uart_step_bang buf
  · intro hne h35 h33 h13 h10 hcap
    unfold uart_step
    rw [if_neg (by push_neg; exact ⟨h13, h10⟩), if_neg (fun hh => h33 hh.1),
      if_neg (fun hh => h35 hh.1), if_neg (fun hh => hh.1.elim h10 h13),
      if_neg h35, if_pos (List.length_pos.mpr hne), if_neg h33,
      if_pos (by simp; omega)]
  · unfold uart_step
    rw [if_pos (Or.inl rfl)]
  · unfold uart_step
    rw [if_pos (Or.inr rfl)]

/-- Witness for C5: closing the in-progress frame `#C` with `!`
dispatches `#C!` and returns the framer to IDLE. -/
theorem C5_framer_step_machine_witness :
    uart_step [35, 67] 33 = ([], [.dispatch [35, 67, 33]]) :=
  (C5_framer_step_machine [35, 67] 33 (by decide)).2.2.2.2.1 (by decide)

/-- C7: malformed input never wedges the framer: any byte sequence
keeps the reachable-state bound, and from every reachable state a
subsequent well-formed frame (`#`, up to 62 ordinary bytes, `!`) is
parsed and handed to the dispatcher in full, the framer back in IDLE,
at worst preceded by one framing-error report for an abandoned frame. -/
theorem C7_malformed_never_wedges :
    (∀ s bs, s.length < UART_BUF_SIZE → ((uart_run s bs).1).length < UART_BUF_SIZE)
    ∧ (∀ s mid, s.length < UART_BUF_SIZE →
        (∀ b ∈ mid, b ≠ 35 ∧ b ≠ 33 ∧ b ≠ 13 ∧ b ≠ 10) →
        mid.length + 2 ≤ UART_BUF_SIZE →
        uart_run s (35 :: (mid ++ [33]))
          = ([], (if s = [] then [] else [.framingErr])
              ++ [.dispatch (35 :: (mid ++ [33]))])) := by
  constructor
  · intro s bs
    induction bs generalizing s with
    | nil => intro h; exact h
    | cons b rest ih =>
        intro h
        simp only [uart_run]
        exact ih _ (uart_step_bound s b h)
  · intro s mid hs hmid hlen
    simp only [UART_BUF_SIZE] at hlen
    have hacc : uart_run [35] mid = (35 :: mid, []) := by
      rw [uart_run_accum mid [35] (by simp) (by simp [UART_BUF_SIZE]; omega) hmid]
      simp
    have hclose : uart_run (35 :: mid) [33] = ([], [.dispatch (35 :: (mid ++ [33]))]) := by
      simp only [uart_run]
      rw [uart_step_bang (35 :: mid) (by simp)]
      simp
    simp only [uart_run, uart_step_hash s]
    rw [uart_run_append [35] mid [33], hacc, hclose]
    simp

/-- Witness for C7: from IDLE, the well-formed frame `#C217!` is
dispatched in full with no error. -/
theorem C7_malformed_never_wedges_witness :
    uart_run [] [35, 67, 50, 49, 55, 33]
      = ([], [.dispatch [35, 67, 50, 49, 55, 33]]) :=
  C7_malformed_never_wedges.2 [] [67, 50, 49, 55] (by decide) (by decide) (by decide)

/-! ## Idempotence of valid commands -/

/-- Is an emitted frame a success acknowledgment (`#Eo...!`) or a
query response (command byte `c` or `s`)? Checksum-error, framing and
invalid acknowledgments are not. -/
def ack_ok (f : List Nat) : Bool :=
  f.getD 1 0 = 99 ∨ f.getD 1 0 = 115 ∨ (f.getD 1 0 = 69 ∧ f.getD 2 0 = 111)

/-- An output list signalling an accepted command: exactly one emitted
frame, which is a success acknowledgment or a query response. -/
def outs_ok : List (List Nat) → Bool
  | [f] => ack_ok f
  | _ => false

theorem rtdb_set_max_temp_min_temp (v : Int) (st : Rtdb) :
    (rtdb_set_max_temp v st).min_temp = st.min_temp := by
  unfold rtdb_set_max_temp; split_ifs <;> rfl

theorem rtdb_set_min_temp_max_temp (v : Int) (st : Rtdb) :
    (rtdb_set_min_temp v st).max_temp = st.max_temp := by
  unfold rtdb_set_min_temp; split_ifs <;> rfl

theorem rtdb_set_max_temp_idem (v : Int) (st : Rtdb) :
    rtdb_set_max_temp v (rtdb_set_max_temp v st) = rtdb_set_max_temp v st := by
  cases st
  unfold rtdb_set_max_temp
  split_ifs <;> simp_all <;> omega

theorem rtdb_set_min_temp_idem (v : Int) (st : Rtdb) :
    rtdb_set_min_temp v (rtdb_set_min_temp v st) = rtdb_set_min_temp v st := by
  cases st
  unfold rtdb_set_min_temp
  split_ifs <;> simp_all <;> omega

theorem rtdb_set_sampling_rate_idem (ms : Nat) (st : Rtdb) :
    rtdb_set_sampling_rate ms (rtdb_set_sampling_rate ms st)
      = rtdb_set_sampling_rate ms st := by
  cases st
  unfold rtdb_set_sampling_rate
  split_ifs <;> simp_all

theorem rtdb_set_system_on_idem (b : Bool) (st : Rtdb) :
    rtdb_set_system_on b (rtdb_set_system_on b st) = rtdb_set_system_on b st := rfl

/-- Re-running the command switch with the same parsed frame from the
state it produced changes nothing and repeats the same accepted
output. -/
theorem dispatch_idem (cmd : Nat) (data : List Nat) (r : Nat) (st st' : Rtdb)
    (outs : List (List Nat)) (h : dispatch cmd data r st = (st', outs))
    (hacc : outs_ok outs = true) :
    dispatch cmd data r st' = (st', outs) := by
  unfold dispatch at h ⊢
  by_cases hc67 : cmd = 67
  · rw [if_pos hc67] at h ⊢
    by_cases hcs : (67 + listSum (digits3 (clamp3 st.current_temp).toNat)) % 256 ≠ r
    · rw [if_pos hcs, Prod.mk.injEq] at h
      obtain ⟨rfl, rfl⟩ := h
      exact absurd hacc (by decide)
    · rw [if_neg hcs, Prod.mk.injEq] at h
      obtain ⟨rfl, rfl⟩ := h
      rw [if_neg hcs]
  · rw [if_neg hc67] at h ⊢
    by_cases hc77 : cmd = 77
    · rw [if_pos hc77] at h ⊢
      by_cases hl : data.length ≠ 3
      · rw [if_pos hl, Prod.mk.injEq] at h
        obtain ⟨rfl, rfl⟩ := h
        exact absurd hacc (by decide)
      · rw [if_neg hl] at h ⊢
        by_cases hcs : (77 + listSum data) % 256 ≠ r
        · rw [if_pos hcs, Prod.mk.injEq] at h
          obtain ⟨rfl, rfl⟩ := h
          exact absurd hacc (by decide)
        · rw [if_neg hcs] at h ⊢
          by_cases hv : atoi data < st.min_temp
          · rw [if_pos hv, Prod.mk.injEq] at h
            obtain ⟨rfl, rfl⟩ := h
            exact absurd hacc (by decide)
          · rw [if_neg hv, Prod.mk.injEq] at h
            obtain ⟨rfl, rfl⟩ := h
            rw [rtdb_set_max_temp_min_temp, if_neg hv, rtdb_set_max_temp_idem]
    · rw [if_neg hc77] at h ⊢
      by_cases hc109 : cmd = 109
      · rw [if_pos hc109] at h ⊢
        by_cases hl : data.length ≠ 3
        · rw [if_pos hl, Prod.mk.injEq] at h
          obtain ⟨rfl, rfl⟩ := h
          exact absurd hacc (by decide)
        · rw [if_neg hl] at h ⊢
          by_cases hcs : (109 + listSum data) % 256 ≠ r
          · rw [if_pos hcs, Prod.mk.injEq] at h
            obtain ⟨rfl, rfl⟩ := h
            exact absurd hacc (by decide)
          · rw [if_neg hcs] at h ⊢
            by_cases hv : atoi data > st.max_temp
            · rw [if_pos hv, Prod.mk.injEq] at h
              obtain ⟨rfl, rfl⟩ := h
              exact absurd hacc (by decide)
            · rw [if_neg hv, Prod.mk.injEq] at h
              obtain ⟨rfl, rfl⟩ := h
              rw [rtdb_set_min_temp_max_temp, if_neg hv, rtdb_set_min_temp_idem]
      · rw [if_neg hc109] at h ⊢
        by_cases hc82 : cmd = 82
        · rw [if_pos hc82] at h ⊢
          by_cases hl : data.length ≠ 4
          · rw [if_pos hl, Prod.mk.injEq] at h
            obtain ⟨rfl, rfl⟩ := h
            exact absurd hacc (by decide)
          · rw [if_neg hl] at h ⊢
            by_cases hv : atoi data < 10 ∨ atoi data > 9999
            · rw [if_pos hv, Prod.mk.injEq] at h
              obtain ⟨rfl, rfl⟩ := h
              exact absurd hacc (by decide)
            · rw [if_neg hv] at h ⊢
              by_cases hcs : (82 + listSum data) % 256 ≠ r
              · rw [if_pos hcs, Prod.mk.injEq] at h
                obtain ⟨rfl, rfl⟩ := h
                exact absurd hacc (by decide)
              · rw [if_neg hcs] at h ⊢
                rw [Prod.mk.injEq] at h
                obtain ⟨rfl, rfl⟩ := h
                rw [rtdb_set_sampling_rate_idem]
        · rw [if_neg hc82] at h ⊢
          by_cases hc114 : cmd = 114
          · rw [if_pos hc114] at h ⊢
            by_cases hl : data.length ≠ 0
            · rw [if_pos hl, Prod.mk.injEq] at h
              obtain ⟨rfl, rfl⟩ := h
              exact absurd hacc (by decide)
            · rw [if_neg hl] at h ⊢
              by_cases hcs : 114 ≠ r
              · rw [if_pos hcs, Prod.mk.injEq] at h
                obtain ⟨rfl, rfl⟩ := h
                exact absurd hacc (by decide)
              · rw [if_neg hcs, Prod.mk.injEq] at h
                obtain ⟨rfl, rfl⟩ := h
                rw [if_neg hcs]
          · rw [if_neg hc114] at h ⊢
            by_cases hc69 : cmd = 69
            · rw [if_pos hc69] at h ⊢
              by_cases hl : data.length ≠ 1
              · rw [if_pos hl, Prod.mk.injEq] at h
                obtain ⟨rfl, rfl⟩ := h
                exact absurd hacc (by decide)
              · rw [if_neg hl] at h ⊢
                by_cases hcs : (69 + listSum data) % 256 ≠ r
                · rw [if_pos hcs, Prod.mk.injEq] at h
                  obtain ⟨rfl, rfl⟩ := h
                  exact absurd hacc (by decide)
                · rw [if_neg hcs] at h ⊢
                  by_cases h48 : data.getD 0 0 = 48
                  · rw [if_pos h48, Prod.mk.injEq] at h
                    obtain ⟨rfl, rfl⟩ := h
                    rw [if_pos h48, rtdb_set_system_on_idem]
                  · rw [if_neg h48] at h ⊢
                    by_cases h49 : data.getD 0 0 = 49
                    · rw [if_pos h49, Prod.mk.injEq] at h
                      obtain ⟨rfl, rfl⟩ := h
                      rw [if_pos h49, rtdb_set_system_on_idem]
                    · rw [if_neg h49, Prod.mk.injEq] at h
                      obtain ⟨rfl, rfl⟩ := h
                      exact absurd hacc (by decide)
            · rw [if_neg hc69] at h ⊢
              by_cases hc83 : cmd = 83
              · rw [if_pos hc83] at h ⊢
                by_cases hl : data.length < 1
                · rw [if_pos hl, Prod.mk.injEq] at h
                  obtain ⟨rfl, rfl⟩ := h
                  exact absurd hacc (by decide)
                · rw [if_neg hl] at h ⊢
                  by_cases hcs : (83 + listSum data) % 256 ≠ r
                  · rw [if_pos hcs, Prod.mk.injEq] at h
                    obtain ⟨rfl, rfl⟩ := h
                    exact absurd hacc (by decide)
                  · rw [if_neg hcs, Prod.mk.injEq] at h
                    obtain ⟨rfl, rfl⟩ := h
                    rw [if_neg hcs]
              · rw [if_neg hc83] at h ⊢
                by_cases hcs : (cmd + listSum data) % 256 ≠ r
                · rw [if_pos hcs, Prod.mk.injEq] at h
                  obtain ⟨rfl, rfl⟩ := h
                  exact absurd hacc (by decide)
                · rw [if_neg hcs, Prod.mk.injEq] at h
                  obtain ⟨rfl, rfl⟩ := h
                  exact absurd hacc (by decide)

/-- C9: processing a frame that was accepted (success acknowledgment
or query response) a second time from the state the first processing
produced leaves the state store unchanged again and emits the very
same output — identical valid command frames are idempotent. -/
theorem C9_valid_command_idempotent (buf : List Nat) (st st' : Rtdb)
    (outs : List (List Nat)) (h : handle_command buf st = (st', outs))
    (hacc : outs_ok outs = true) :
    handle_command buf st' = (st', outs) := by
  unfold handle_command at h ⊢
  by_cases h6 : buf.length < 6
  · rw [if_pos h6, Prod.mk.injEq] at h
    obtain ⟨rfl, rfl⟩ := h
    exact absurd hacc (by decide)
  · rw [if_neg h6] at h ⊢
    by_cases hwf : ¬ (buf.getD 0 0 = 35 ∧ buf.getD (buf.length - 1) 0 = 33)
    · rw [if_pos hwf, Prod.mk.injEq] at h
      obtain ⟨rfl, rfl⟩ := h
      exact absurd hacc (by decide)
    · rw [if_neg hwf] at h ⊢
      exact dispatch_idem _ _ _ _ _ _ h hacc

/-- Witness for C9: the accepted frame `#E0117!` (enable system)
processed again from the state it produced yields the same state and
the same success acknowledgment. -/
theorem C9_valid_command_idempotent_witness :
    handle_command [35, 69, 48, 49, 49, 55, 33] (rtdb_set_system_on true rtdb_default)
      = (rtdb_set_system_on true rtdb_default, [ack_frame 111]) :=
  C9_valid_command_idempotent [35, 69, 48, 49, 49, 55, 33] rtdb_default
    (rtdb_set_system_on true rtdb_default) [ack_frame 111] (by decide) (by decide)

end Setr
